import Mathlib

/-!
# ArticleListView (`src/main/resources/static/app.js`)

A shallow embedding of the browser script that lists and deletes articles.

* JavaScript values produced by `res.json()` are the type `JVal`; the language
  operators the script applies to them (`||`, property read, the string
  conversion of a template substitution) are `JVal.or`, `JVal.get`, `JVal.toText`.
  The string conversion can throw (an object with an own `toString` key), and
  numbers are doubles: only integers of magnitude at most `2 ^ 53` are printed
  here, any other number is printed by the engine (`Engine.numberText`).
* `Content.innerHTML` is the exact string the script assigns to
  `listEl.innerHTML`.  The rows, cells and delete controls of the container are
  read off the document tree that HTML fragment parsing builds from that string
  (`parseFragment`).  The parser follows the tokenizer and the tree construction
  of the HTML standard on the tags `tr`, `td` and `button`; on any input outside
  that part it answers `none`.
* Network and user answers are inputs (`FetchOutcome`, `ClickEnv`); requests,
  dialogs and body parses are recorded in `Page.trace`, a request by the URL
  string passed to `fetch`; `requestPath` gives the path such a request goes to.
* The host page is not among the sources.  It is taken to provide the element
  `list` as a table body, and no element matching `.btn.delete` outside it.
* Every operation is run to quiescence; interleavings of two operations that are
  in flight at the same time are not modelled, nor are the resource limits of
  the engine (string length, call stack depth).
-/

namespace ArticleListView

set_option maxRecDepth 100000

/-! ## JavaScript values -/

/-- Values that `JSON.parse` can produce, plus `undefined` (the result of reading
a property that is absent).  `num m k` is the finite number `m * 2 ^ k` (every
finite double has this form; both zeros are `m = 0`), `inf` is an infinity, which
`JSON.parse` gives for a literal beyond the range of doubles.  The fields of an
object are its own properties; when a key occurs twice the first entry is the one
in effect. -/
inductive JVal where
  | undefined : JVal
  | null : JVal
  | bool (b : Bool) : JVal
  | num (m : Int) (k : Int) : JVal
  | inf (negative : Bool) : JVal
  | str (s : String) : JVal
  | arr (items : List JVal) : JVal
  | obj (fields : List (String × JVal)) : JVal
  deriving Inhabited

/-- An exception value: an `Error` object, of which the script reads `message`. -/
structure JsError where
  message : String
  deriving DecidableEq, Repr, Inhabited

/-- The parts of the JavaScript engine that are taken as given: the message of the
`TypeError` raised when property `key` is read from `null` or `undefined`, the
message of the `TypeError` raised when the value substituted for `key` cannot be
converted to a string, and `Number::toString` for the number `m * 2 ^ k` when it
is not an integer of magnitude at most `2 ^ 53`. -/
structure Engine where
  nullishReadMessage : (receiverIsNull : Bool) → (key : String) → String
  convertMessage : (key : String) → String
  numberText : (m : Int) → (k : Int) → String

namespace JVal

/-- JavaScript `ToBoolean`. -/
def truthy : JVal → Bool
  | undefined => false
  | null => false
  | bool b => b
  | num m _ => m != 0
  | inf _ => true
  | str s => s != ""
  | arr _ => true
  | obj _ => true

/-- The operator `a || b`. -/
def or (a b : JVal) : JVal :=
  if a.truthy then a else b

/-- `Array.isArray`. -/
def isArray : JVal → Bool
  | arr _ => true
  | _ => false

/-- The elements of an array (`[]` for any other value). -/
def items : JVal → List JVal
  | arr xs => xs
  | _ => []

/-- Is the value `null`. -/
def isNull : JVal → Bool
  | null => true
  | _ => false

/-- Is the value `null` or `undefined`. -/
def isNullish : JVal → Bool
  | undefined => true
  | null => true
  | _ => false

/-- The integer that `m * 2 ^ k` is, when it is one. -/
def intValue (m k : Int) : Option Int :=
  if 0 ≤ k then some (m * 2 ^ k.toNat)
  else if m % 2 ^ (-k).toNat = 0 then some (m / 2 ^ (-k).toNat)
  else none

/-- `Number::toString` (radix 10) of `m * 2 ^ k`: an integer of magnitude at most
`2 ^ 53` is printed in decimal, any other number as the engine prints it. -/
def numText (eng : Engine) (m k : Int) : String :=
  match intValue m k with
  | some n => if n.natAbs ≤ 2 ^ 53 then toString n else eng.numberText m k
  | none => eng.numberText m k

mutual
/-- JavaScript `ToString`, as applied to a template substitution; `none` stands
for the `TypeError` of an object that cannot be converted to a primitive.  An
object made by `JSON.parse` inherits `Object.prototype.toString` unless it has an
own property `toString`, which is never callable. -/
def toText (eng : Engine) : JVal → Option String
  | undefined => some "undefined"
  | null => some "null"
  | bool true => some "true"
  | bool false => some "false"
  | num m k => some (numText eng m k)
  | inf false => some "Infinity"
  | inf true => some "-Infinity"
  | str s => some s
  | arr xs => joinItems eng xs
  | obj fields =>
    match fields.lookup "toString" with
    | some _ => none
    | none => some "[object Object]"
/-- The text of `Array.prototype.join` with the separator `,`. -/
def joinItems (eng : Engine) : List JVal → Option String
  | [] => some ""
  | [x] => itemText eng x
  | x :: y :: rest =>
    match itemText eng x with
    | none => none
    | some s =>
      match joinItems eng (y :: rest) with
      | none => none
      | some t => some (s ++ "," ++ t)
/-- One element inside `Array.prototype.join`: `null` and `undefined` contribute
the empty string, any other element its `ToString`. -/
def itemText (eng : Engine) : JVal → Option String
  | undefined => some ""
  | null => some ""
  | bool true => some "true"
  | bool false => some "false"
  | num m k => some (numText eng m k)
  | inf false => some "Infinity"
  | inf true => some "-Infinity"
  | str s => some s
  | arr xs => joinItems eng xs
  | obj fields =>
    match fields.lookup "toString" with
    | some _ => none
    | none => some "[object Object]"
end

/-- The property read `a.key` for one of the four keys the script reads, none of
which exists on a prototype: an object gives its own property or `undefined`,
`null` and `undefined` raise a `TypeError`, every other value gives `undefined`. -/
def get (eng : Engine) (a : JVal) (key : String) : Except JsError JVal :=
  match a with
  | undefined => .error ⟨eng.nullishReadMessage false key⟩
  | null => .error ⟨eng.nullishReadMessage true key⟩
  | obj fields => .ok ((fields.lookup key).getD undefined)
  | _ => .ok undefined

end JVal

/-! ## The markup the script assigns -/

/-- The five texts substituted into the template literal of `load` for one
article: the four data cells and the `data-id` attribute of the button. -/
structure Row where
  id : String
  paperTitle : String
  authors : String
  publicationYear : String
  dataId : String
  deriving DecidableEq, Repr, Inhabited

/-- The string the template literal of `load` (lines 14-22) evaluates to. -/
def Row.html (r : Row) : String :=
  "\n\t\t\t<tr>\n\t\t\t\t<td>" ++ r.id ++
  "</td>\n\t\t\t\t<td>" ++ r.paperTitle ++
  "</td>\n\t\t\t\t<td>" ++ r.authors ++
  "</td>\n\t\t\t\t<td>" ++ r.publicationYear ++
  "</td>\n\t\t\t\t<td><button class=\"btn delete\" data-id=\"" ++ r.dataId ++
  "\">Delete</button></td>\n\t\t\t</tr>\n\t\t"

/-- The two shapes of string the script assigns to `listEl.innerHTML`: a single
placeholder row spanning the five columns, or the joined rows of the template. -/
inductive Markup where
  | placeholder (text : String) : Markup
  | rows (rs : List Row) : Markup
  deriving DecidableEq, Repr, Inhabited

/-- The string assigned. -/
def Markup.html : Markup → String
  | .placeholder text => "<tr><td colspan=\"5\">" ++ text ++ "</td></tr>"
  | .rows rs => String.join (rs.map Row.html)

/-- What `listEl` holds: the markup last assigned to `innerHTML`, and how many
times the loop of lines 24-31 has since added a click listener to every element
matching `.btn.delete`. -/
structure Content where
  markup : Markup
  listeners : Nat
  deriving DecidableEq, Repr, Inhabited

/-- The value of `listEl.innerHTML`. -/
def Content.innerHTML (c : Content) : String :=
  c.markup.html

/-! ## The HTML fragment parser

The tokenizer and the tree construction of the HTML standard for a fragment whose
context element is a table body, restricted to the tags `tr`, `td` and `button`.
Inputs outside the modelled part give `none`: a character reference (`&`), a
comment or declaration (`<!`, `<?`), NUL, a carriage return, any other tag name,
an event-handler attribute, a `class` on a row or cell, a `button` outside a cell
or with a `class` other than `btn delete`. -/

/-- A tag token; names and values are kept as character lists. -/
structure Tag where
  closing : Bool
  name : List Char
  attrs : List (List Char × List Char)
  deriving DecidableEq, Repr, Inhabited

/-- Completing an attribute: a name already present on the tag is dropped. -/
def Tag.add (t : Tag) (name value : List Char) : Tag :=
  if t.attrs.any (fun a => a.1 == name) then t
  else { t with attrs := t.attrs ++ [(name, value)] }

/-- A token of the tokenizer: a character or a tag. -/
inductive Token where
  | char (c : Char) : Token
  | tag (t : Tag) : Token
  deriving DecidableEq, Repr, Inhabited

/-- The tokenizer states that the modelled inputs reach. -/
inductive TState where
  | data : TState
  | tagOpen : TState
  | endTagOpen : TState
  | tagName (closing : Bool) (name : List Char) : TState
  | beforeAttrName (t : Tag) : TState
  | attrName (t : Tag) (name : List Char) : TState
  | afterAttrName (t : Tag) (name : List Char) : TState
  | beforeAttrValue (t : Tag) (name : List Char) : TState
  | attrValueDq (t : Tag) (name value : List Char) : TState
  | attrValueSq (t : Tag) (name value : List Char) : TState
  | attrValueUnq (t : Tag) (name value : List Char) : TState
  | afterAttrValueQ (t : Tag) : TState
  | selfClosing (t : Tag) : TState
  deriving DecidableEq, Repr, Inhabited

/-- Tab, line feed, form feed and space. -/
def isWs (c : Char) : Bool :=
  c == '\t' || c == '\n' || c == '\x0c' || c == ' '

/-- Emitting the current tag token returns the tokenizer to the data state. -/
def emitTag (t : Tag) : Option (TState × List Token) :=
  some (.data, [.tag t])

/-- The before-attribute-name state. -/
def stepBeforeAttrName (t : Tag) (c : Char) : Option (TState × List Token) :=
  if isWs c then some (.beforeAttrName t, [])
  else if c == '/' then some (.selfClosing t, [])
  else if c == '>' then emitTag t
  else some (.attrName t [c.toLower], [])

/-- One step of the tokenizer: the next state and the tokens emitted. -/
def step : TState → Char → Option (TState × List Token)
  | .data, c =>
    if c == '<' then some (.tagOpen, [])
    else if c == '&' then none
    else some (.data, [.char c])
  | .tagOpen, c =>
    if c == '/' then some (.endTagOpen, [])
    else if c.isAlpha then some (.tagName false [c.toLower], [])
    else if c == '!' || c == '?' || c == '&' then none
    else if c == '<' then some (.tagOpen, [.char '<'])
    else some (.data, [.char '<', .char c])
  | .endTagOpen, c =>
    if c.isAlpha then some (.tagName true [c.toLower], [])
    else if c == '>' then some (.data, [])
    else none
  | .tagName closing name, c =>
    if isWs c then some (.beforeAttrName ⟨closing, name, []⟩, [])
    else if c == '/' then some (.selfClosing ⟨closing, name, []⟩, [])
    else if c == '>' then emitTag ⟨closing, name, []⟩
    else some (.tagName closing (name ++ [c.toLower]), [])
  | .beforeAttrName t, c => stepBeforeAttrName t c
  | .attrName t name, c =>
    if isWs c then some (.afterAttrName t name, [])
    else if c == '/' then some (.selfClosing (t.add name []), [])
    else if c == '>' then emitTag (t.add name [])
    else if c == '=' then some (.beforeAttrValue t name, [])
    else some (.attrName t (name ++ [c.toLower]), [])
  | .afterAttrName t name, c =>
    if isWs c then some (.afterAttrName t name, [])
    else if c == '/' then some (.selfClosing (t.add name []), [])
    else if c == '=' then some (.beforeAttrValue t name, [])
    else if c == '>' then emitTag (t.add name [])
    else some (.attrName (t.add name []) [c.toLower], [])
  | .beforeAttrValue t name, c =>
    if isWs c then some (.beforeAttrValue t name, [])
    else if c == '\x22' then some (.attrValueDq t name [], [])
    else if c == '\x27' then some (.attrValueSq t name [], [])
    else if c == '>' then emitTag (t.add name [])
    else if c == '&' then none
    else some (.attrValueUnq t name [c], [])
  | .attrValueDq t name value, c =>
    if c == '\x22' then some (.afterAttrValueQ (t.add name value), [])
    else if c == '&' then none
    else some (.attrValueDq t name (value ++ [c]), [])
  | .attrValueSq t name value, c =>
    if c == '\x27' then some (.afterAttrValueQ (t.add name value), [])
    else if c == '&' then none
    else some (.attrValueSq t name (value ++ [c]), [])
  | .attrValueUnq t name value, c =>
    if isWs c then some (.beforeAttrName (t.add name value), [])
    else if c == '&' then none
    else if c == '>' then emitTag (t.add name value)
    else some (.attrValueUnq t name (value ++ [c]), [])
  | .afterAttrValueQ t, c => stepBeforeAttrName t c
  | .selfClosing t, c => stepBeforeAttrName t c

/-- A `button` element: its attributes and its text. -/
structure DomButton where
  attrs : List (List Char × List Char)
  text : List Char
  deriving DecidableEq, Repr, Inhabited

/-- A `td` element: its text content and the `button` elements inside it, in
document order. -/
structure DomCell where
  text : List Char
  buttons : List DomButton
  deriving DecidableEq, Repr, Inhabited

/-- A `tr` element: its cells, in document order. -/
structure DomRow where
  cells : List DomCell
  deriving DecidableEq, Repr, Inhabited

/-- The tree under construction: between rows (insertion mode "in table body"),
inside a row ("in row"), or inside a cell ("in cell"), possibly with a `button`
open. -/
inductive BState where
  | body (rows : List DomRow) : BState
  | row (rows : List DomRow) (cur : DomRow) : BState
  | cell (rows : List DomRow) (cur : DomRow) (c : DomCell) (btn : Option DomButton) : BState
  deriving DecidableEq, Repr, Inhabited

/-- The cell once the `button` that is open, if any, has been popped. -/
def DomCell.close (c : DomCell) : Option DomButton → DomCell
  | none => c
  | some b => { c with buttons := c.buttons ++ [b] }

/-- The row once the open cell has been popped. -/
def DomRow.push (r : DomRow) (c : DomCell) : DomRow :=
  { cells := r.cells ++ [c] }

/-- Does a start tag carry an event-handler content attribute. -/
def hasHandlerAttr (t : Tag) : Bool :=
  t.attrs.any fun a => a.1.take 2 == ['o', 'n']

/-- The tag kinds of the modelled part. -/
inductive Kind where
  | tr : Kind
  | td : Kind
  | button : Kind
  deriving DecidableEq, Repr

/-- The kind of a tag, or `none` when the tag is outside the modelled part: another
name, a start tag with an event-handler attribute, a `tr` or `td` start tag with a
`class`, a `button` start tag with a `class` other than `btn delete`. -/
def Tag.kind (t : Tag) : Option Kind :=
  if t.name == ['t', 'r'] then
    if !t.closing && (hasHandlerAttr t || (t.attrs.lookup "class".data).isSome) then none
    else some .tr
  else if t.name == ['t', 'd'] then
    if !t.closing && (hasHandlerAttr t || (t.attrs.lookup "class".data).isSome) then none
    else some .td
  else if t.name == "button".data then
    if t.closing then some .button
    else if hasHandlerAttr t then none
    else match t.attrs.lookup "class".data with
      | none => some .button
      | some v => if v == "btn delete".data then some .button else none
  else none

/-- Tree construction for one token. -/
def build : BState → Token → Option BState
  | .body rows, .char _ => some (.body rows)
  | .row rows cur, .char _ => some (.row rows cur)
  | .cell rows cur c none, .char ch =>
    some (.cell rows cur { c with text := c.text ++ [ch] } none)
  | .cell rows cur c (some b), .char ch =>
    some (.cell rows cur { c with text := c.text ++ [ch] }
      (some { b with text := b.text ++ [ch] }))
  | st, .tag t =>
    match t.kind, t.closing, st with
    | none, _, _ => none
    | some .tr, false, .body rows => some (.row rows ⟨[]⟩)
    | some .tr, false, .row rows cur => some (.row (rows ++ [cur]) ⟨[]⟩)
    | some .tr, false, .cell rows cur c b =>
      some (.row (rows ++ [cur.push (c.close b)]) ⟨[]⟩)
    | some .td, false, .body rows => some (.cell rows ⟨[]⟩ ⟨[], []⟩ none)
    | some .td, false, .row rows cur => some (.cell rows cur ⟨[], []⟩ none)
    | some .td, false, .cell rows cur c b =>
      some (.cell rows (cur.push (c.close b)) ⟨[], []⟩ none)
    | some .button, false, .body _ => none
    | some .button, false, .row _ _ => none
    | some .button, false, .cell rows cur c b =>
      some (.cell rows cur (c.close b) (some ⟨t.attrs, []⟩))
    | some .tr, true, .body rows => some (.body rows)
    | some .tr, true, .row rows cur => some (.body (rows ++ [cur]))
    | some .tr, true, .cell rows cur c b => some (.body (rows ++ [cur.push (c.close b)]))
    | some .td, true, .body rows => some (.body rows)
    | some .td, true, .row rows cur => some (.row rows cur)
    | some .td, true, .cell rows cur c b => some (.row rows (cur.push (c.close b)))
    | some .button, true, .body rows => some (.body rows)
    | some .button, true, .row rows cur => some (.row rows cur)
    | some .button, true, .cell rows cur c b => some (.cell rows cur (c.close b) none)

/-- The parser after one more input character: NUL and carriage return are
outside the modelled part; otherwise the tokenizer steps and every token it
emits goes through tree construction. -/
def feed (s : TState × BState) (c : Char) : Option (TState × BState) :=
  if c == '\x00' || c == '\r' then none
  else match step s.1 c with
    | none => none
    | some (t, out) =>
      match out.foldlM build s.2 with
      | none => none
      | some b => some (t, b)

/-- The characters emitted when the input ends: a pending `<` or `</` is text,
a tag that is not complete is dropped. -/
def TState.atEnd : TState → List Token
  | .tagOpen => [.char '<']
  | .endTagOpen => [.char '<', .char '/']
  | _ => []

/-- The rows of the finished tree: every element still open is closed. -/
def BState.rows : BState → List DomRow
  | .body rows => rows
  | .row rows cur => rows ++ [cur]
  | .cell rows cur c b => rows ++ [cur.push (c.close b)]

/-- Modelled from the spec: the host page is not among the sources; the element
`list` is taken to be a table body (`tbody`), as the DOM contract of the
specification says.  The result is the list of `tr` children that assigning
`html` to the `innerHTML` of a table body produces, or `none` outside the
modelled part of HTML. -/
def parseFragment (html : String) : Option (List DomRow) :=
  match html.data.foldlM feed (.data, .body []) with
  | none => none
  | some (t, b) =>
    match t.atEnd.foldlM build b with
    | none => none
    | some b => some b.rows

/-! ## The document tree of the container -/

/-- A delete control as the click handler sees it: the text that
`e.target.dataset.id` contributes to a string concatenation (the value of the
`data-id` attribute, "undefined" without one) and the number of click listeners
registered on the element. -/
structure Button where
  dataId : String
  clickListeners : Nat
  deriving DecidableEq, Repr, Inhabited

/-- The `tr` elements of the container. -/
def Content.dom (c : Content) : Option (List DomRow) :=
  parseFragment c.innerHTML

/-- The number of table rows the container holds. -/
def Content.rowCount (c : Content) : Option Nat :=
  c.dom.map List.length

/-- The text content of every cell, row by row. -/
def Content.cellTexts (c : Content) : Option (List (List String)) :=
  c.dom.map fun rows => rows.map fun r => r.cells.map fun cell => String.mk cell.text

/-- Does the element match the selector `.btn.delete`. -/
def DomButton.isControl (b : DomButton) : Bool :=
  b.attrs.lookup "class".data == some "btn delete".data

/-- The element as an event target. -/
def DomButton.target (listeners : Nat) (b : DomButton) : Button :=
  { dataId := match b.attrs.lookup "data-id".data with
      | some v => String.mk v
      | none => "undefined"
    clickListeners := listeners }

/-- The elements of one row that match `.btn.delete`, in document order. -/
def DomRow.controls (r : DomRow) : List DomButton :=
  (r.cells.map fun cell => cell.buttons.filter DomButton.isControl).flatten

/-- The delete controls of the container, row by row. -/
def Content.rowControls (c : Content) : Option (List (List Button)) :=
  c.dom.map fun rows => rows.map fun r => r.controls.map (DomButton.target c.listeners)

/-- The elements `document.querySelectorAll('.btn.delete')` finds, in document
order (the host page is taken to have none outside `listEl`). -/
def Content.buttons (c : Content) : Option (List Button) :=
  c.rowControls.map List.flatten

/-- Total number of click listeners on the delete controls of the container. -/
def Content.listenerCount (c : Content) : Option Nat :=
  c.buttons.map fun bs => (bs.map Button.clickListeners).sum

/-! ## Effects -/

/-- An observable action of the script.  For `get` and `delete`, `url` is the
string the script passes to `fetch`. -/
inductive Event where
  | get (url : String) : Event
  | delete (url : String) : Event
  | parseBody : Event
  | confirm (message : String) : Event
  | alert (message : String) : Event
  deriving DecidableEq, Repr, Inhabited

/-- The page: the content of `listEl` and the actions performed so far. -/
structure Page where
  content : Content
  trace : List Event
  deriving DecidableEq, Repr, Inhabited

/-- Outcome of `res.json()`. -/
inductive BodyOutcome where
  | invalid (e : JsError) : BodyOutcome
  | parsed (data : JVal) : BodyOutcome

/-- Outcome of `fetch`: the promise rejects, or a response arrives. -/
inductive FetchOutcome where
  | rejected (e : JsError) : FetchOutcome
  | response (ok : Bool) (body : BodyOutcome) : FetchOutcome

/-- Result of running an operation: the page it leaves and the exception that
escaped it, if any. -/
structure Outcome where
  page : Page
  thrown : Option JsError

def Page.log (p : Page) (e : Event) : Page :=
  { p with trace := p.trace ++ [e] }

/-- The assignment `listEl.innerHTML = …`: the former children, with their
listeners, are discarded. -/
def Page.setInnerHTML (p : Page) (m : Markup) : Page :=
  { p with content := ⟨m, 0⟩ }

/-- The URL strings of the `GET` requests in a trace. -/
def getRequests (t : List Event) : List String :=
  t.filterMap fun e => match e with
    | .get url => some url
    | _ => none

/-- The URL strings of the `DELETE` requests in a trace. -/
def deleteRequests (t : List Event) : List String :=
  t.filterMap fun e => match e with
    | .delete url => some url
    | _ => none

/-- Messages of the alerts in a trace. -/
def alerts (t : List Event) : List String :=
  t.filterMap fun e => match e with
    | .alert m => some m
    | _ => none

/-- Number of body parses (`res.json()`) in a trace. -/
def bodyParses (t : List Event) : Nat :=
  t.countP fun e => match e with
    | .parseBody => true
    | _ => false

/-- Characters that URL parsing leaves unchanged inside a path segment, taken
narrowly: ASCII letters and digits, `-` and `_`. -/
def urlSafeChar (c : Char) : Bool :=
  c.isAlphanum || c == '-' || c == '_'

/-- The path of the HTTP request that `fetch(url)` sends, for a `url` that is
`/articles/` followed by safe characters and, optionally, by a fragment (`#` and
what follows it), which is not part of a request; `none` for any other string. -/
def requestPath (url : String) : Option String :=
  let path := url.data.takeWhile fun c => c != '#'
  if path.take 10 == "/articles/".data && (path.drop 10).all urlSafeChar then
    some (String.mk path)
  else none

/-! ## `load` -/

/-- A template substitution for the property `key`: `ToString` of the value,
which throws a `TypeError` when the value has no string conversion. -/
def substitute (eng : Engine) (key : String) (v : JVal) : Except JsError String :=
  match v.toText eng with
  | some s => .ok s
  | none => .error ⟨eng.convertMessage key⟩

/-- The callback of `data.map` (lines 14-22): the five substitutions of the
template, each evaluated and converted to a string before the next. -/
def renderRow (eng : Engine) (a : JVal) : Except JsError Row := do
  let c1 ← substitute eng "id" ((← a.get eng "id").or (.str ""))
  let c2 ← substitute eng "paperTitle" ((← a.get eng "paperTitle").or (.str ""))
  let c3 ← substitute eng "authors" ((← a.get eng "authors").or (.str ""))
  let c4 ← substitute eng "publicationYear" ((← a.get eng "publicationYear").or (.str ""))
  let d ← substitute eng "id" (← a.get eng "id")
  return { id := c1, paperTitle := c2, authors := c3, publicationYear := c4, dataId := d }

/-- The loop `document.querySelectorAll('.btn.delete').forEach(btn =>
btn.addEventListener('click', …))` (lines 24-31): every matching element gets
one more click listener. -/
def wire (c : Content) : Content :=
  { c with listeners := c.listeners + 1 }

/-- The body of the `try` block of `load` (lines 7-31). -/
def loadTry (eng : Engine) (net : FetchOutcome) (p : Page) : Outcome :=
  let p := p.log (.get "/articles")
  match net with
  | .rejected e => ⟨p, some e⟩
  | .response ok body =>
    if !ok then ⟨p, some ⟨"Fetch failed"⟩⟩ else
    let p := p.log .parseBody
    match body with
    | .invalid e => ⟨p, some e⟩
    | .parsed data =>
      if !data.isArray || data.items.length == 0 then
        ⟨p.setInnerHTML (.placeholder "No articles"), none⟩
      else
        match data.items.mapM (renderRow eng) with
        | .error e => ⟨p, some e⟩
        | .ok rs =>
          let p := p.setInnerHTML (.rows rs)
          ⟨{ p with content := wire p.content }, none⟩

/-- The function `load` (lines 4-35); `net` is what the `GET` request and the
body parse produce. -/
def load (eng : Engine) (net : FetchOutcome) (p : Page) : Outcome :=
  let p := p.setInnerHTML (.placeholder "Loading...")
  match loadTry eng net p with
  | ⟨q, some e⟩ => ⟨q.setInnerHTML (.placeholder ("Error loading: " ++ e.message)), none⟩
  | ⟨q, none⟩ => ⟨q, none⟩

/-! ## The delete click handler -/

/-- Inputs of one run of the click handler: the answer to `confirm`, the outcome
of the `DELETE` request and, for the refresh, of the `GET` request. -/
structure ClickEnv where
  confirmed : Bool
  deleted : FetchOutcome
  reload : FetchOutcome

/-- The click listener of a delete control (lines 25-30); `target` is `e.target`. -/
def deleteClick (eng : Engine) (env : ClickEnv) (target : Button) (p : Page) : Outcome :=
  let id := target.dataId
  let p := p.log (.confirm ("Delete article " ++ id ++ "?"))
  if !env.confirmed then ⟨p, none⟩ else
  let p := p.log (.delete ("/articles/" ++ id))
  match env.deleted with
  | .rejected e => ⟨p, some e⟩
  | .response ok _ =>
    if ok then load eng env.reload p else ⟨p.log (.alert "Delete failed"), none⟩

/-- The page at the moment the `DELETE` request has been issued. -/
def afterDelete (target : Button) (p : Page) : Page :=
  (p.log (.confirm ("Delete article " ++ target.dataId ++ "?"))).log
    (.delete ("/articles/" ++ target.dataId))

/-- An engine for the examples.  Its two messages are the texts V8 gives.  Its
`numberText` is arbitrary: the examples contain no number outside the integers
of magnitude at most `2 ^ 53`, so it is never consulted. -/
def sampleEngine : Engine where
  nullishReadMessage isNull key :=
    "Cannot read properties of " ++ (if isNull then "null" else "undefined") ++
    " (reading \x27" ++ key ++ "\x27)"
  convertMessage _ := "Cannot convert object to primitive value"
  numberText _ _ := "?"

/-- A page whose list is empty and on which nothing has happened yet. -/
def Page.blank : Page := ⟨⟨.placeholder "", 0⟩, []⟩

/-- The response of the scenario of the specification. -/
def sampleData : JVal :=
  .arr [.obj [("id", .num 1 0), ("paperTitle", .str "A"), ("authors", .str "X"),
              ("publicationYear", .num 2020 0)]]

/-- One article whose title holds table markup. -/
def markupTitleData : List JVal :=
  [.obj [("id", .num 1 0), ("paperTitle", .str "</td></tr><tr><td>x"), ("authors", .str "X"),
         ("publicationYear", .num 2020 0)]]

/-- Two articles, the first with an object that has an own `toString` key as
`id`. -/
def unconvertibleIdData : List JVal :=
  [.obj [("id", .obj [("toString", .num 1 0)])], .obj [("id", .num 2 0)]]

/-- One article whose `id` is the string `a"b`. -/
def quoteIdData : List JVal :=
  [.obj [("id", .str "a\"b"), ("paperTitle", .str "A")]]

/-- One article whose `id` is the string `a#b`. -/
def fragmentIdData : List JVal :=
  [.obj [("id", .str "a#b"), ("paperTitle", .str "A")]]

/-- One article whose `id` is the string `7"`. -/
def quoteTailIdData : List JVal :=
  [.obj [("id", .str "7\"")]]

/-! ## The reading of the specification -/

/-- The field `key` of an article: the value stored under the key, `undefined`
when the field is missing. -/
def fieldOf (a : JVal) (key : String) : JVal :=
  match a with
  | .obj fields => (fields.lookup key).getD .undefined
  | _ => .undefined

/-- The text of a data cell as the specification words it: the empty string for
a missing or falsy field, the text of the field otherwise (`none` when the field
has no text). -/
def specCell (eng : Engine) (v : JVal) : Option String :=
  if v.truthy then v.toText eng else some ""

/-- The five texts of an article: its four data cells and the text of its
identifier; `none` when one of them does not exist. -/
def articleRow (eng : Engine) (a : JVal) : Option Row :=
  match specCell eng (fieldOf a "id"), specCell eng (fieldOf a "paperTitle"),
      specCell eng (fieldOf a "authors"), specCell eng (fieldOf a "publicationYear"),
      (fieldOf a "id").toText eng with
  | some c1, some c2, some c3, some c4, some d => some ⟨c1, c2, c3, c4, d⟩
  | _, _, _, _, _ => none

/-- A text that is markup-free where HTML reads it as element content: no `<`,
no `&`, no NUL, no carriage return. -/
def plainText (s : String) : Bool :=
  s.data.all fun c => !(c == '<' || c == '&' || c == '\x00' || c == '\r')

/-- A text that is markup-free where HTML reads it as a double-quoted attribute
value: no `"`, no `&`, no NUL, no carriage return. -/
def plainAttr (s : String) : Bool :=
  s.data.all fun c => !(c == '\x22' || c == '&' || c == '\x00' || c == '\r')

/-- The five texts of a row are markup-free where they are substituted. -/
def Row.plain (r : Row) : Bool :=
  plainText r.id && plainText r.paperTitle && plainText r.authors &&
    plainText r.publicationYear && plainAttr r.dataId

/-- An article whose five texts exist and are markup-free: an array element that
is neither `null` nor `undefined`, whose fields have a string conversion free of
the characters HTML gives a meaning to. -/
def plainArticle (eng : Engine) (a : JVal) : Bool :=
  !a.isNullish &&
    match articleRow eng a with
    | some r => r.plain
    | none => false

/-- The text of the identifier of an article (empty when it has none). -/
def idText (eng : Engine) (a : JVal) : String :=
  ((fieldOf a "id").toText eng).getD ""

/-- The four data cells the specification gives the row of article `a`. -/
def specCells (eng : Engine) (a : JVal) : List String :=
  [(specCell eng (fieldOf a "id")).getD "", (specCell eng (fieldOf a "paperTitle")).getD "",
   (specCell eng (fieldOf a "authors")).getD "",
   (specCell eng (fieldOf a "publicationYear")).getD ""]

/-- The `tr` element that the template markup of a row with markup-free texts
parses to: the four data cells, then the cell holding the delete control. -/
def Row.dom (r : Row) : DomRow :=
  ⟨[⟨r.id.data, []⟩, ⟨r.paperTitle.data, []⟩, ⟨r.authors.data, []⟩,
    ⟨r.publicationYear.data, []⟩,
    ⟨"Delete".data, [⟨[("class".data, "btn delete".data), ("data-id".data, r.dataId.data)],
      "Delete".data⟩]⟩]⟩

/-- The row of an article whose five texts exist. -/
def rowOf (eng : Engine) (a : JVal) : Row :=
  (articleRow eng a).getD default

/-- The constant pieces of the template literal and of the placeholder row. -/
def rowOpen : String := "\n\t\t\t<tr>\n\t\t\t\t<td>"

def cellSep : String := "</td>\n\t\t\t\t<td>"

def buttonOpen : String := "</td>\n\t\t\t\t<td><button class=\"btn delete\" data-id=\""

def rowClose : String := "\">Delete</button></td>\n\t\t\t</tr>\n\t\t"

def placeholderOpen : String := "<tr><td colspan=\"5\">"

def placeholderClose : String := "</td></tr>"

/-! ## Evaluation on concrete inputs -/

theorem toText_samples :
    (JVal.num 2020 0).toText sampleEngine = some "2020" ∧
    (JVal.num 6 (-1)).toText sampleEngine = some "3" ∧
    (JVal.arr [.num 1 0, .null, .str "a"]).toText sampleEngine = some "1,,a" ∧
    ((JVal.num 0 0).or (.str "")).toText sampleEngine = some "" ∧
    (JVal.obj []).toText sampleEngine = some "[object Object]" ∧
    (JVal.obj [("toString", .num 1 0)]).toText sampleEngine = none ∧
    (JVal.arr [.obj [("toString", .num 1 0)]]).toText sampleEngine = none := by decide

theorem parseFragment_samples :
    parseFragment "<tr><td colspan=\"5\">No articles</td></tr>"
      = some [⟨[⟨"No articles".data, []⟩]⟩] ∧
    parseFragment "<tr><td>x</td></tr>\n<tr><td>y<td>z</tr>"
      = some [⟨[⟨"x".data, []⟩]⟩, ⟨[⟨"y".data, []⟩, ⟨"z".data, []⟩]⟩] ∧
    parseFragment "<td><button class=\"btn delete\" data-id=\"a\"b\">D</button>"
      = some [⟨[⟨"D".data, [⟨[("class".data, "btn delete".data), ("data-id".data, "a".data),
          ("b\"".data, [])], "D".data⟩]⟩]⟩] ∧
    parseFragment "<td>R&amp;D</td>" = none := by decide

/-- The scenario of the specification, down to the string assigned to
`listEl.innerHTML` and the cells it parses to. -/
theorem sample_innerHTML :
    (load sampleEngine (.response true (.parsed sampleData)) Page.blank).page.content.innerHTML =
      "\n\t\t\t<tr>\n\t\t\t\t<td>1</td>\n\t\t\t\t<td>A</td>\n\t\t\t\t<td>X</td>" ++
      "\n\t\t\t\t<td>2020</td>\n\t\t\t\t<td><button class=\"btn delete\" data-id=\"1\">" ++
      "Delete</button></td>\n\t\t\t</tr>\n\t\t" ∧
    (load sampleEngine (.response true (.parsed sampleData)) Page.blank).page.content.cellTexts =
      some [["1", "A", "X", "2020", "Delete"]] ∧
    (load sampleEngine (.response true (.parsed sampleData)) Page.blank).page.content.buttons =
      some [⟨"1", 1⟩] := by decide

theorem sample_null_element :
    (load sampleEngine (.response true (.parsed (.arr [.null]))) Page.blank).page.content =
      ⟨.placeholder "Error loading: Cannot read properties of null (reading \x27id\x27)", 0⟩ := by
  decide

/-! ## The parser on the markup of the script -/

theorem feed_text (s : List Char)
    (h : (s.all fun c => !(c == '<' || c == '&' || c == '\x00' || c == '\r')) = true)
    (rows : List DomRow) (cur : DomRow) (c : DomCell) :
    s.foldlM feed (.data, .cell rows cur c none)
      = some (.data, .cell rows cur ⟨c.text ++ s, c.buttons⟩ none) := by
  induction s generalizing c with
  | nil => simp
  | cons ch s ih =>
    simp only [List.all_cons, Bool.and_eq_true, Bool.not_eq_true', Bool.or_eq_false_iff] at h
    obtain ⟨⟨⟨⟨h1, h2⟩, h3⟩, h4⟩, hs⟩ := h
    have hf : feed (.data, .cell rows cur c none) ch
        = some (.data, .cell rows cur ⟨c.text ++ [ch], c.buttons⟩ none) := by
      simp [feed, step, build, h1, h2, h3, h4]
    rw [List.foldlM_cons, hf]
    simp only [Option.bind_eq_bind, Option.some_bind]
    rw [ih hs]
    simp

theorem feed_attr (s : List Char)
    (h : (s.all fun c => !(c == '\x22' || c == '&' || c == '\x00' || c == '\r')) = true)
    (t : Tag) (name value : List Char) (b : BState) :
    s.foldlM feed (.attrValueDq t name value, b)
      = some (.attrValueDq t name (value ++ s), b) := by
  induction s generalizing value with
  | nil => simp
  | cons ch s ih =>
    simp only [List.all_cons, Bool.and_eq_true, Bool.not_eq_true', Bool.or_eq_false_iff] at h
    obtain ⟨⟨⟨⟨h1, h2⟩, h3⟩, h4⟩, hs⟩ := h
    have hf : feed (.attrValueDq t name value, b) ch
        = some (.attrValueDq t name (value ++ [ch]), b) := by
      simp [feed, step, h1, h2, h3, h4]
    rw [List.foldlM_cons, hf]
    simp only [Option.bind_eq_bind, Option.some_bind]
    rw [ih hs]
    simp

theorem feed_rowOpen (rows : List DomRow) :
    rowOpen.data.foldlM feed (.data, .body rows)
      = some (.data, .cell rows ⟨[]⟩ ⟨[], []⟩ none) := by
  rfl

theorem feed_cellSep (rows : List DomRow) (cur : DomRow) (c : DomCell) :
    cellSep.data.foldlM feed (.data, .cell rows cur c none)
      = some (.data, .cell rows (cur.push c) ⟨[], []⟩ none) := by
  rfl

theorem feed_buttonOpen (rows : List DomRow) (cur : DomRow) (c : DomCell) :
    buttonOpen.data.foldlM feed (.data, .cell rows cur c none)
      = some (.attrValueDq ⟨false, "button".data, [("class".data, "btn delete".data)]⟩
          "data-id".data [], .cell rows (cur.push c) ⟨[], []⟩ none) := by
  rfl

theorem feed_rowClose (rows : List DomRow) (cur : DomRow) (v : List Char) :
    rowClose.data.foldlM feed
        (.attrValueDq ⟨false, "button".data, [("class".data, "btn delete".data)]⟩
          "data-id".data v, .cell rows cur ⟨[], []⟩ none)
      = some (.data, .body (rows ++ [cur.push ⟨"Delete".data,
          [⟨[("class".data, "btn delete".data), ("data-id".data, v)], "Delete".data⟩]⟩])) := by
  rfl

theorem feed_placeholderOpen :
    placeholderOpen.data.foldlM feed (.data, .body [])
      = some (.data, .cell [] ⟨[]⟩ ⟨[], []⟩ none) := by
  rfl

theorem feed_placeholderClose (c : DomCell) :
    placeholderClose.data.foldlM feed (.data, .cell [] ⟨[]⟩ c none)
      = some (.data, .body [⟨[c]⟩]) := by
  rfl

theorem Row.html_eq (r : Row) :
    r.html = rowOpen ++ r.id ++ cellSep ++ r.paperTitle ++ cellSep ++ r.authors ++ cellSep ++
      r.publicationYear ++ buttonOpen ++ r.dataId ++ rowClose := by
  rfl

theorem foldlM_feed_append (a b : List Char) (s t : TState × BState)
    (h : a.foldlM feed s = some t) : (a ++ b).foldlM feed s = b.foldlM feed t := by
  rw [List.foldlM_append, h]
  rfl

/-- The markup of one row with markup-free texts adds exactly its `tr` element. -/
theorem feed_row (r : Row) (h : r.plain = true) (rows : List DomRow) :
    r.html.data.foldlM feed (.data, .body rows) = some (.data, .body (rows ++ [r.dom])) := by
  simp only [Row.plain, Bool.and_eq_true, plainText, plainAttr] at h
  obtain ⟨⟨⟨⟨h1, h2⟩, h3⟩, h4⟩, h5⟩ := h
  have e : r.html.data = rowOpen.data ++ (r.id.data ++ (cellSep.data ++ (r.paperTitle.data ++
      (cellSep.data ++ (r.authors.data ++ (cellSep.data ++ (r.publicationYear.data ++
      (buttonOpen.data ++ (r.dataId.data ++ rowClose.data))))))))) := by
    rw [Row.html_eq]
    simp only [String.data_append, List.append_assoc]
  rw [e]
  rw [foldlM_feed_append _ _ _ _ (feed_rowOpen rows)]
  rw [foldlM_feed_append _ _ _ _ (feed_text _ h1 _ _ _)]
  rw [foldlM_feed_append _ _ _ _ (feed_cellSep _ _ _)]
  rw [foldlM_feed_append _ _ _ _ (feed_text _ h2 _ _ _)]
  rw [foldlM_feed_append _ _ _ _ (feed_cellSep _ _ _)]
  rw [foldlM_feed_append _ _ _ _ (feed_text _ h3 _ _ _)]
  rw [foldlM_feed_append _ _ _ _ (feed_cellSep _ _ _)]
  rw [foldlM_feed_append _ _ _ _ (feed_text _ h4 _ _ _)]
  rw [foldlM_feed_append _ _ _ _ (feed_buttonOpen _ _ _)]
  rw [foldlM_feed_append _ _ _ _ (feed_attr _ h5 _ _ _ _)]
  rw [feed_rowClose]
  rfl

theorem feed_rows (rs : List Row) (h : ∀ r ∈ rs, r.plain = true) (rows : List DomRow) :
    ((rs.map fun r => r.html.data).flatten).foldlM feed (.data, .body rows)
      = some (.data, .body (rows ++ rs.map Row.dom)) := by
  induction rs generalizing rows with
  | nil => simp
  | cons r rs ih =>
    have hr := h r (List.mem_cons_self r rs)
    have hrs := ih (fun x hx => h x (List.mem_cons_of_mem r hx)) (rows ++ [r.dom])
    rw [List.map_cons, List.flatten_cons, foldlM_feed_append _ _ _ _ (feed_row r hr rows), hrs,
      List.map_cons, List.append_assoc]
    rfl

/-- The rows markup with markup-free texts parses to one `tr` per row, in order. -/
theorem parseFragment_rows (rs : List Row) (h : ∀ r ∈ rs, r.plain = true) :
    parseFragment (Markup.html (.rows rs)) = some (rs.map Row.dom) := by
  have hd : (Markup.html (.rows rs)).data = (rs.map fun r => r.html.data).flatten := by
    simp [Markup.html, String.data_join, Function.comp_def]
  unfold parseFragment
  rw [hd, feed_rows rs h []]
  rfl

/-- A placeholder with a markup-free text parses to one row of one cell. -/
theorem parseFragment_placeholder (text : String) (h : plainText text = true) :
    parseFragment (Markup.html (.placeholder text)) = some [⟨[⟨text.data, []⟩]⟩] := by
  have hd : (Markup.html (.placeholder text)).data
      = placeholderOpen.data ++ (text.data ++ placeholderClose.data) := by
    show ((placeholderOpen ++ text) ++ placeholderClose).data = _
    simp only [String.data_append, List.append_assoc]
  unfold parseFragment
  simp only [plainText] at h
  rw [hd]
  rw [foldlM_feed_append _ _ _ _ feed_placeholderOpen,
    foldlM_feed_append _ _ _ _ (feed_text _ h _ _ _), feed_placeholderClose]
  rfl

/-! ## Auxiliary lemmas on `load` -/

theorem get_of_not_nullish (eng : Engine) (a : JVal) (key : String)
    (h : a.isNullish = false) : a.get eng key = .ok (fieldOf a key) := by
  cases a <;> simp_all [JVal.get, fieldOf, JVal.isNullish]

theorem get_of_nullish (eng : Engine) (a : JVal) (key : String)
    (h : a.isNullish = true) :
    a.get eng key = .error ⟨eng.nullishReadMessage a.isNull key⟩ := by
  cases a <;> simp_all [JVal.get, JVal.isNullish, JVal.isNull]

theorem or_toText (eng : Engine) (v : JVal) :
    (v.or (.str "")).toText eng = specCell eng v := by
  unfold JVal.or specCell
  split
  · rfl
  · simp [JVal.toText]

theorem substitute_or (eng : Engine) (key : String) (v : JVal) (s : String)
    (h : specCell eng v = some s) : substitute eng key (v.or (.str "")) = .ok s := by
  simp [substitute, or_toText, h]

theorem substitute_ok (eng : Engine) (key : String) (v : JVal) (s : String)
    (h : v.toText eng = some s) : substitute eng key v = .ok s := by
  simp [substitute, h]

theorem articleRow_some (eng : Engine) (a : JVal) (r : Row) (h : articleRow eng a = some r) :
    specCell eng (fieldOf a "id") = some r.id ∧
    specCell eng (fieldOf a "paperTitle") = some r.paperTitle ∧
    specCell eng (fieldOf a "authors") = some r.authors ∧
    specCell eng (fieldOf a "publicationYear") = some r.publicationYear ∧
    (fieldOf a "id").toText eng = some r.dataId := by
  unfold articleRow at h
  split at h
  · rename_i c1 c2 c3 c4 d h1 h2 h3 h4 h5
    cases h
    exact ⟨h1, h2, h3, h4, h5⟩
  · cases h

theorem renderRow_ok (eng : Engine) (a : JVal) (r : Row) (hn : a.isNullish = false)
    (h : articleRow eng a = some r) : renderRow eng a = .ok r := by
  obtain ⟨h1, h2, h3, h4, h5⟩ := articleRow_some eng a r h
  simp only [renderRow, get_of_not_nullish eng a _ hn, bind, Except.bind,
    substitute_or eng _ _ _ h1, substitute_or eng _ _ _ h2, substitute_or eng _ _ _ h3,
    substitute_or eng _ _ _ h4, substitute_ok eng _ _ _ h5]
  rfl

theorem renderRow_of_nullish (eng : Engine) (a : JVal) (h : a.isNullish = true) :
    renderRow eng a = .error ⟨eng.nullishReadMessage a.isNull "id"⟩ := by
  simp only [renderRow, get_of_nullish eng a _ h]
  rfl

theorem renderRow_of_unconvertible_id (eng : Engine) (a : JVal) (hn : a.isNullish = false)
    (ht : (fieldOf a "id").truthy = true) (hc : (fieldOf a "id").toText eng = none) :
    renderRow eng a = .error ⟨eng.convertMessage "id"⟩ := by
  have hs : substitute eng "id" ((fieldOf a "id").or (.str "")) = .error ⟨eng.convertMessage "id"⟩ := by
    simp [substitute, JVal.or, ht, hc]
  simp only [renderRow, get_of_not_nullish eng a _ hn, bind, Except.bind, hs]

theorem mapM_ok {α β ε : Type} (g : α → Except ε β) (f : α → β) (l : List α)
    (h : ∀ a ∈ l, g a = .ok (f a)) : l.mapM g = .ok (l.map f) := by
  induction l with
  | nil => rfl
  | cons a rest ih =>
    have ha := h a (List.mem_cons_self a rest)
    have hr := ih fun b hb => h b (List.mem_cons_of_mem a hb)
    rw [List.mapM_cons, ha, hr]
    rfl

theorem mapM_error {α β ε : Type} (g : α → Except ε β) (pre post : List α) (x : α) (e : ε)
    (hpre : ∀ a ∈ pre, ∃ r, g a = .ok r) (hx : g x = .error e) :
    (pre ++ x :: post).mapM g = .error e := by
  induction pre with
  | nil =>
    rw [List.nil_append, List.mapM_cons, hx]
    rfl
  | cons a rest ih =>
    obtain ⟨r, ha⟩ := hpre a (List.mem_cons_self a rest)
    have hr := ih fun b hb => hpre b (List.mem_cons_of_mem a hb)
    rw [List.cons_append, List.mapM_cons, ha, hr]
    rfl

theorem plainArticle_spec (eng : Engine) (a : JVal) (h : plainArticle eng a = true) :
    a.isNullish = false ∧ articleRow eng a = some (rowOf eng a) ∧ (rowOf eng a).plain = true := by
  unfold plainArticle at h
  unfold rowOf
  cases hr : articleRow eng a with
  | none => simp [hr] at h
  | some r => simpa [hr] using h

/-- What `load` does with a successful response carrying a non-empty array of
articles whose texts exist and are markup-free. -/
theorem load_plain (eng : Engine) (p : Page) (data : List JVal) (hne : data ≠ [])
    (hwf : ∀ a ∈ data, plainArticle eng a = true) :
    load eng (.response true (.parsed (.arr data))) p =
      ⟨⟨⟨.rows (data.map (rowOf eng)), 1⟩, p.trace ++ [.get "/articles", .parseBody]⟩,
        none⟩ := by
  have hlen : (data.length == 0) = false := by
    cases data with
    | nil => exact absurd rfl hne
    | cons a rest => rfl
  have hm : data.mapM (renderRow eng) = .ok (data.map (rowOf eng)) :=
    mapM_ok _ _ _ fun a ha =>
      renderRow_ok eng a _ (plainArticle_spec eng a (hwf a ha)).1
        (plainArticle_spec eng a (hwf a ha)).2.1
  simp only [load, loadTry, JVal.isArray, JVal.items, hlen, hm, Page.setInnerHTML, Page.log,
    wire]
  simp

theorem dom_plain (eng : Engine) (data : List JVal) (n : Nat)
    (hwf : ∀ a ∈ data, plainArticle eng a = true) :
    Content.dom ⟨.rows (data.map (rowOf eng)), n⟩ = some (data.map fun a => (rowOf eng a).dom) := by
  have h : ∀ r ∈ data.map (rowOf eng), r.plain = true := by
    intro r hr
    obtain ⟨a, ha, rfl⟩ := List.mem_map.1 hr
    exact (plainArticle_spec eng a (hwf a ha)).2.2
  unfold Content.dom Content.innerHTML
  rw [parseFragment_rows _ h, List.map_map]
  rfl

theorem rowOf_cells (eng : Engine) (a : JVal) (h : plainArticle eng a = true) :
    ((rowOf eng a).dom.cells.map fun cell => String.mk cell.text)
      = specCells eng a ++ ["Delete"] := by
  obtain ⟨h1, h2, h3, h4, _⟩ := articleRow_some eng a _ (plainArticle_spec eng a h).2.1
  simp [Row.dom, specCells, h1, h2, h3, h4]

theorem rowOf_controls (eng : Engine) (a : JVal) (n : Nat) (h : plainArticle eng a = true) :
    (rowOf eng a).dom.controls.map (DomButton.target n) = [⟨idText eng a, n⟩] := by
  obtain ⟨_, _, _, _, h5⟩ := articleRow_some eng a _ (plainArticle_spec eng a h).2.1
  simp only [idText, h5, Option.getD_some]
  rfl

theorem cellTexts_plain (eng : Engine) (data : List JVal) (n : Nat)
    (hwf : ∀ a ∈ data, plainArticle eng a = true) :
    Content.cellTexts ⟨.rows (data.map (rowOf eng)), n⟩
      = some (data.map fun a => specCells eng a ++ ["Delete"]) := by
  unfold Content.cellTexts
  rw [dom_plain eng data n hwf]
  simp only [Option.map_some', List.map_map, Option.some.injEq]
  exact List.map_congr_left fun a ha => rowOf_cells eng a (hwf a ha)

theorem rowControls_plain (eng : Engine) (data : List JVal) (n : Nat)
    (hwf : ∀ a ∈ data, plainArticle eng a = true) :
    Content.rowControls ⟨.rows (data.map (rowOf eng)), n⟩
      = some (data.map fun a => [⟨idText eng a, n⟩]) := by
  unfold Content.rowControls
  rw [dom_plain eng data n hwf]
  simp only [Option.map_some', List.map_map, Option.some.injEq]
  exact List.map_congr_left fun a ha => rowOf_controls eng a n (hwf a ha)

/-- The `try` block records one `GET /articles`, then at most the body parse. -/
theorem loadTry_trace (eng : Engine) (net : FetchOutcome) (p : Page) :
    (loadTry eng net p).page.trace = p.trace ++ [.get "/articles"] ∨
    (loadTry eng net p).page.trace = p.trace ++ [.get "/articles", .parseBody] := by
  unfold loadTry
  cases net with
  | rejected e => left; rfl
  | response ok body =>
    cases ok with
    | false => left; rfl
    | true =>
      right
      cases body with
      | invalid e => simp [Page.log]
      | parsed data =>
        by_cases hc : (!data.isArray || data.items.length == 0) = true
        · simp [Page.log, Page.setInnerHTML, hc]
        · simp only [Bool.not_true, Bool.false_eq_true, if_false, if_neg hc]
          split <;> simp [Page.log, Page.setInnerHTML]

/-- The `catch` clause of `load`, spelled out on the outcome of the `try` block. -/
theorem load_eq (eng : Engine) (net : FetchOutcome) (p : Page) :
    load eng net p =
      match (loadTry eng net (p.setInnerHTML (.placeholder "Loading..."))).thrown with
      | some e =>
        ⟨(loadTry eng net (p.setInnerHTML (.placeholder "Loading..."))).page.setInnerHTML
          (.placeholder ("Error loading: " ++ e.message)), none⟩
      | none => ⟨(loadTry eng net (p.setInnerHTML (.placeholder "Loading..."))).page, none⟩ := by
  rcases h : loadTry eng net (p.setInnerHTML (.placeholder "Loading...")) with ⟨q, _ | e⟩ <;>
    simp [load, h]

/-- The trace that `load` leaves: one `GET /articles`, then at most the body
parse. -/
theorem load_trace (eng : Engine) (net : FetchOutcome) (p : Page) :
    (load eng net p).page.trace = p.trace ++ [.get "/articles"] ∨
    (load eng net p).page.trace = p.trace ++ [.get "/articles", .parseBody] := by
  have h := loadTry_trace eng net (p.setInnerHTML (.placeholder "Loading..."))
  rw [load_eq]
  cases (loadTry eng net (p.setInnerHTML (.placeholder "Loading..."))).thrown <;>
    simpa [Page.setInnerHTML] using h

theorem load_not_thrown (eng : Engine) (net : FetchOutcome) (p : Page) :
    (load eng net p).thrown = none := by
  rw [load_eq]
  cases (loadTry eng net (p.setInnerHTML (.placeholder "Loading..."))).thrown <;> rfl

/-- When the `try` block throws, `load` assigns the error placeholder. -/
theorem load_of_thrown (eng : Engine) (net : FetchOutcome) (p : Page) (e : JsError)
    (h : (loadTry eng net (p.setInnerHTML (.placeholder "Loading..."))).thrown = some e) :
    (load eng net p).page.content = ⟨.placeholder ("Error loading: " ++ e.message), 0⟩ := by
  rw [load_eq, h]
  rfl

theorem plainText_append (s t : String) (hs : plainText s = true) (ht : plainText t = true) :
    plainText (s ++ t) = true := by
  simp only [plainText, String.data_append, List.all_append, Bool.and_eq_true] at *
  exact ⟨hs, ht⟩

/-- The document tree of an error placeholder whose message is markup-free. -/
theorem errorRow_dom (msg : String) (n : Nat) (h : plainText msg = true) :
    Content.cellTexts ⟨.placeholder ("Error loading: " ++ msg), n⟩
      = some [["Error loading: " ++ msg]] ∧
    Content.rowCount ⟨.placeholder ("Error loading: " ++ msg), n⟩ = some 1 ∧
    Content.buttons ⟨.placeholder ("Error loading: " ++ msg), n⟩ = some [] := by
  have hp : plainText ("Error loading: " ++ msg) = true :=
    plainText_append _ _ (by decide) h
  have hd : Content.dom ⟨.placeholder ("Error loading: " ++ msg), n⟩
      = some [⟨[⟨("Error loading: " ++ msg).data, []⟩]⟩] :=
    parseFragment_placeholder _ hp
  simp only [Content.cellTexts, Content.rowCount, Content.buttons, Content.rowControls, hd]
  exact ⟨rfl, rfl, rfl⟩

theorem getRequests_append (t u : List Event) :
    getRequests (t ++ u) = getRequests t ++ getRequests u := by
  simp [getRequests]

theorem deleteRequests_append (t u : List Event) :
    deleteRequests (t ++ u) = deleteRequests t ++ deleteRequests u := by
  simp [deleteRequests]

theorem alerts_append (t u : List Event) : alerts (t ++ u) = alerts t ++ alerts u := by
  simp [alerts]

theorem load_getRequests (eng : Engine) (net : FetchOutcome) (p : Page) :
    getRequests (load eng net p).page.trace = getRequests p.trace ++ ["/articles"] := by
  rcases load_trace eng net p with h | h <;> rw [h, getRequests_append] <;> rfl

theorem load_deleteRequests (eng : Engine) (net : FetchOutcome) (p : Page) :
    deleteRequests (load eng net p).page.trace = deleteRequests p.trace := by
  rcases load_trace eng net p with h | h <;> rw [h, deleteRequests_append] <;>
    simp [deleteRequests]

theorem load_alerts (eng : Engine) (net : FetchOutcome) (p : Page) :
    alerts (load eng net p).page.trace = alerts p.trace := by
  rcases load_trace eng net p with h | h <;> rw [h, alerts_append] <;> simp [alerts]

theorem afterDelete_requests (target : Button) (p : Page) :
    getRequests (afterDelete target p).trace = getRequests p.trace ∧
    deleteRequests (afterDelete target p).trace
      = deleteRequests p.trace ++ ["/articles/" ++ target.dataId] ∧
    alerts (afterDelete target p).trace = alerts p.trace := by
  simp [afterDelete, Page.log, getRequests, deleteRequests, alerts]

/-- A confirmed click issues exactly one `DELETE`, for the `data-id` of its
target, whatever the network answers. -/
theorem deleteClick_deleteRequests (eng : Engine) (env : ClickEnv) (target : Button)
    (p : Page) (hc : env.confirmed = true) :
    deleteRequests (deleteClick eng env target p).page.trace
      = deleteRequests p.trace ++ ["/articles/" ++ target.dataId] := by
  obtain ⟨c, d, r⟩ := env
  simp only at hc
  subst hc
  have h := (afterDelete_requests target p).2.1
  cases d with
  | rejected e => exact h
  | response ok body =>
    cases ok with
    | false =>
      show deleteRequests ((afterDelete target p).log (.alert "Delete failed")).trace = _
      simp only [Page.log, deleteRequests_append, h]
      simp [deleteRequests]
    | true =>
      show deleteRequests (load eng r (afterDelete target p)).page.trace = _
      rw [load_deleteRequests, h]

theorem requestPath_safe (s : String) (h : s.data.all urlSafeChar = true) :
    requestPath ("/articles/" ++ s) = some ("/articles/" ++ s) := by
  have hs : ∀ c ∈ s.data, (c != '#') = true := by
    intro c hc
    have hu := List.all_eq_true.1 h c hc
    by_contra hne
    have hc2 : c = '#' := by simpa using hne
    subst hc2
    exact absurd hu (by decide)
  have hall : ∀ c ∈ ("/articles/" ++ s).data, (c != '#') = true := by
    intro c hc
    rw [String.data_append, List.mem_append] at hc
    rcases hc with hc | hc
    · revert c
      decide
    · exact hs c hc
  have htw : ("/articles/" ++ s).data.takeWhile (fun c => c != '#') = ("/articles/" ++ s).data :=
    List.takeWhile_eq_self_iff.2 hall
  unfold requestPath
  simp only [htw]
  have hd : ("/articles/" ++ s).data = "/articles/".data ++ s.data := String.data_append _ _
  have ht : ("/articles/" ++ s).data.take 10 = "/articles/".data := by
    rw [hd]
    exact List.take_left' rfl
  have hdr : ("/articles/" ++ s).data.drop 10 = s.data := by
    rw [hd]
    exact List.drop_left' rfl
  rw [ht, hdr, h]
  simp only [beq_self_eq_true, Bool.and_self, if_true, Option.some.injEq]

theorem numText_zero (eng : Engine) (k : Int) : JVal.numText eng 0 k = "0" := by
  have h : JVal.intValue 0 k = some 0 := by
    unfold JVal.intValue
    split <;> simp
  simp only [JVal.numText, h]
  rw [if_pos (by decide)]
  decide

theorem toText_of_falsy (eng : Engine) (v : JVal) (h : v.truthy = false) :
    ∃ s, v.toText eng = some s ∧ ("" = s ↔ v = .str "") := by
  cases v with
  | undefined => exact ⟨"undefined", rfl, by simp⟩
  | null => exact ⟨"null", rfl, by simp⟩
  | bool b =>
    simp only [JVal.truthy] at h
    subst h
    exact ⟨"false", rfl, by simp⟩
  | num m k =>
    have hm : m = 0 := by simpa [JVal.truthy] using h
    subst hm
    refine ⟨"0", ?_, by simp⟩
    simp only [JVal.toText, numText_zero]
  | inf n => simp [JVal.truthy] at h
  | str s =>
    have hs : s = "" := by simpa [JVal.truthy] using h
    subst hs
    exact ⟨"", rfl, by simp⟩
  | arr xs => simp [JVal.truthy] at h
  | obj fs => simp [JVal.truthy] at h

/-! ## Properties of `load` -/

/-- C1 (as amended): for a successful `GET /articles` whose payload is a non-empty
array of articles whose texts exist and are markup-free (`plainArticle`), `load`
completes normally and the markup it assigns parses to exactly as many table rows
as the array has elements, in response order: row `i` holds the `id`,
`paperTitle`, `authors` and `publicationYear` of article `i`, a missing or falsy
field giving the empty cell, followed by the cell of the delete control. -/
theorem load_renders_articles (eng : Engine) (p : Page) (data : List JVal)
    (hne : data ≠ []) (hwf : ∀ a ∈ data, plainArticle eng a = true) :
    (load eng (.response true (.parsed (.arr data))) p).thrown = none ∧
    (load eng (.response true (.parsed (.arr data))) p).page.content.rowCount
      = some data.length ∧
    ∃ table, (load eng (.response true (.parsed (.arr data))) p).page.content.cellTexts
        = some table ∧
      table.length = data.length ∧
      ∀ (i : Nat) (a : JVal), data[i]? = some a →
        table[i]? = some (specCells eng a ++ ["Delete"]) := by
  rw [load_plain eng p data hne hwf]
  refine ⟨rfl, ?_, _, cellTexts_plain eng data 1 hwf, by simp, ?_⟩
  · show (Content.dom ⟨.rows (data.map (rowOf eng)), 1⟩).map List.length = _
    rw [dom_plain eng data 1 hwf]
    simp
  · intro i a hi
    simp [hi]

/-- The scenario of the specification: one article `1 | A | X | 2020`. -/
theorem load_renders_articles_witness :
    (load sampleEngine (.response true (.parsed sampleData)) Page.blank).page.content.cellTexts
        = some [["1", "A", "X", "2020", "Delete"]] ∧
    (load sampleEngine (.response true (.parsed (.arr sampleData.items))) Page.blank).page.content.rowCount
        = some sampleData.items.length :=
  ⟨by decide,
   (load_renders_articles sampleEngine Page.blank sampleData.items (by simp [sampleData, JVal.items])
      (by decide)).2.1⟩

/-- C1 fails as stated: one article whose title holds row markup is rendered as
two rows, none of which has the cells of the article; and an array of two
articles the first of which has an object with an own `toString` key as `id`
is rendered as the single error row. -/
theorem load_renders_articles_counterexample :
    markupTitleData.length = 1 ∧
    (load sampleEngine (.response true (.parsed (.arr markupTitleData))) Page.blank).page.content.rowCount
      = some 2 ∧
    (load sampleEngine (.response true (.parsed (.arr markupTitleData))) Page.blank).page.content.cellTexts
      = some [["1", ""], ["x", "X", "2020", "Delete"]] ∧
    unconvertibleIdData.length = 2 ∧
    (load sampleEngine (.response true (.parsed (.arr unconvertibleIdData))) Page.blank).page.content
      = ⟨.placeholder "Error loading: Cannot convert object to primitive value", 0⟩ ∧
    (load sampleEngine (.response true (.parsed (.arr unconvertibleIdData)))
      Page.blank).page.content.rowCount = some 1 := by
  decide

/-- C2: for a successful `GET /articles` whose parsed payload is the empty array
or is not an array, `load` completes normally, the container holds exactly the one
placeholder row "No articles", and no delete control (hence no click listener)
exists. -/
theorem load_no_articles (eng : Engine) (p : Page) (data : JVal)
    (h : data = .arr [] ∨ data.isArray = false) :
    (load eng (.response true (.parsed data)) p).thrown = none ∧
    (load eng (.response true (.parsed data)) p).page.content
      = ⟨.placeholder "No articles", 0⟩ ∧
    (load eng (.response true (.parsed data)) p).page.content.rowCount = some 1 ∧
    (load eng (.response true (.parsed data)) p).page.content.cellTexts
      = some [["No articles"]] ∧
    (load eng (.response true (.parsed data)) p).page.content.innerHTML
      = "<tr><td colspan=\"5\">No articles</td></tr>" ∧
    (load eng (.response true (.parsed data)) p).page.content.buttons = some [] ∧
    (load eng (.response true (.parsed data)) p).page.content.listenerCount = some 0 := by
  have hc : (!data.isArray || data.items.length == 0) = true := by
    rcases h with h | h
    · subst h; rfl
    · simp [h]
  have hl : load eng (.response true (.parsed data)) p =
      ⟨⟨⟨.placeholder "No articles", 0⟩, p.trace ++ [.get "/articles", .parseBody]⟩, none⟩ := by
    simp [load, loadTry, hc, Page.setInnerHTML, Page.log]
  rw [hl]
  refine ⟨rfl, rfl, ?_, ?_, ?_, ?_, ?_⟩
  · show Content.rowCount ⟨.placeholder "No articles", 0⟩ = _
    decide
  · show Content.cellTexts ⟨.placeholder "No articles", 0⟩ = _
    decide
  · show Content.innerHTML ⟨.placeholder "No articles", 0⟩ = _
    decide
  · show Content.buttons ⟨.placeholder "No articles", 0⟩ = _
    decide
  · show Content.listenerCount ⟨.placeholder "No articles", 0⟩ = _
    decide

/-- A payload that is an object, not an array. -/
theorem load_no_articles_witness :
    (load sampleEngine (.response true (.parsed (.obj [("id", .num 1 0)]))) Page.blank).page.content
      = ⟨.placeholder "No articles", 0⟩ :=
  (load_no_articles sampleEngine Page.blank (.obj [("id", .num 1 0)]) (Or.inr rfl)).2.1

/-- C3: for a `GET /articles` response whose status is not a success, whatever
its body, `load` completes normally and the container holds exactly the one
placeholder row "Error loading: Fetch failed"; the body is never parsed (the only
action recorded is the `GET` request). -/
theorem load_fetch_failed (eng : Engine) (p : Page) (body : BodyOutcome) :
    (load eng (.response false body) p).thrown = none ∧
    (load eng (.response false body) p).page.content
      = ⟨.placeholder "Error loading: Fetch failed", 0⟩ ∧
    (load eng (.response false body) p).page.content.rowCount = some 1 ∧
    (load eng (.response false body) p).page.content.cellTexts
      = some [["Error loading: Fetch failed"]] ∧
    (load eng (.response false body) p).page.content.innerHTML
      = "<tr><td colspan=\"5\">Error loading: Fetch failed</td></tr>" ∧
    (load eng (.response false body) p).page.trace = p.trace ++ [.get "/articles"] ∧
    bodyParses (load eng (.response false body) p).page.trace = bodyParses p.trace := by
  have hl : load eng (.response false body) p =
      ⟨⟨⟨.placeholder "Error loading: Fetch failed", 0⟩, p.trace ++ [.get "/articles"]⟩,
        none⟩ := by
    simp [load, loadTry, Page.setInnerHTML, Page.log]
  rw [hl]
  refine ⟨rfl, rfl, ?_, ?_, ?_, rfl, ?_⟩
  · show Content.rowCount ⟨.placeholder "Error loading: Fetch failed", 0⟩ = _
    decide
  · show Content.cellTexts ⟨.placeholder "Error loading: Fetch failed", 0⟩ = _
    decide
  · show Content.innerHTML ⟨.placeholder "Error loading: Fetch failed", 0⟩ = _
    decide
  · simp [bodyParses]

/-- C4 (as amended): `load` never lets an exception escape.  Whatever the `try`
block throws, the container is assigned the markup of the one placeholder row
"Error loading: " followed by the message of that exception, replacing the
"Loading..." row set earlier in the call; when the message is markup-free the
container holds exactly that one row, of one cell with that text, and no delete
control.  This covers `fetch` rejecting, `res.json()` rejecting, a `null` or
`undefined` array element, whose property read raises a `TypeError`, and an
element whose `id` is an object without a string conversion. -/
theorem load_recovers (eng : Engine) (p : Page) :
    (∀ net, (load eng net p).thrown = none) ∧
    (∀ net e, (loadTry eng net (p.setInnerHTML (.placeholder "Loading..."))).thrown = some e →
      (load eng net p).page.content = ⟨.placeholder ("Error loading: " ++ e.message), 0⟩ ∧
      (load eng net p).page.content.innerHTML
        = "<tr><td colspan=\"5\">" ++ ("Error loading: " ++ e.message) ++ "</td></tr>" ∧
      (plainText e.message = true →
        (load eng net p).page.content.cellTexts = some [["Error loading: " ++ e.message]] ∧
        (load eng net p).page.content.rowCount = some 1 ∧
        (load eng net p).page.content.buttons = some [])) ∧
    (∀ e, (load eng (.rejected e) p).page.content
      = ⟨.placeholder ("Error loading: " ++ e.message), 0⟩) ∧
    (∀ e, (load eng (.response true (.invalid e)) p).page.content
      = ⟨.placeholder ("Error loading: " ++ e.message), 0⟩) ∧
    (∀ pre x post, (∀ a ∈ pre, ∃ r, renderRow eng a = .ok r) → x.isNullish = true →
      (load eng (.response true (.parsed (.arr (pre ++ x :: post)))) p).page.content
        = ⟨.placeholder ("Error loading: " ++ eng.nullishReadMessage x.isNull "id"), 0⟩) ∧
    (∀ pre x post, (∀ a ∈ pre, ∃ r, renderRow eng a = .ok r) → x.isNullish = false →
      (fieldOf x "id").truthy = true → (fieldOf x "id").toText eng = none →
      (load eng (.response true (.parsed (.arr (pre ++ x :: post)))) p).page.content
        = ⟨.placeholder ("Error loading: " ++ eng.convertMessage "id"), 0⟩) := by
  refine ⟨fun net => load_not_thrown eng net p, ?_, ?_, ?_, ?_, ?_⟩
  · intro net e h
    have hl := load_of_thrown eng net p e h
    rw [hl]
    refine ⟨rfl, rfl, fun hp => ?_⟩
    exact errorRow_dom e.message 0 hp
  · intro e
    exact load_of_thrown eng _ p e rfl
  · intro e
    exact load_of_thrown eng _ p e rfl
  · intro pre x post hpre hx
    refine load_of_thrown eng _ p _ ?_
    have hlen : ((pre ++ x :: post).length == 0) = false := by simp
    simp only [loadTry, JVal.isArray, JVal.items, hlen,
      mapM_error (renderRow eng) pre post x _ hpre (renderRow_of_nullish eng x hx)]
    simp
  · intro pre x post hpre hx ht hc
    refine load_of_thrown eng _ p _ ?_
    have hlen : ((pre ++ x :: post).length == 0) = false := by simp
    simp only [loadTry, JVal.isArray, JVal.items, hlen,
      mapM_error (renderRow eng) pre post x _ hpre
        (renderRow_of_unconvertible_id eng x hx ht hc)]
    simp

/-- A response whose second element is `null`, on V8. -/
theorem load_recovers_witness :
    (load sampleEngine (.response true (.parsed (.arr ([.obj [("id", .num 1 0)]] ++ .null :: []))))
        Page.blank).page.content
      = ⟨.placeholder ("Error loading: " ++ sampleEngine.nullishReadMessage JVal.null.isNull "id"), 0⟩ ∧
    "Error loading: " ++ sampleEngine.nullishReadMessage JVal.null.isNull "id"
      = "Error loading: Cannot read properties of null (reading \x27id\x27)" :=
  ⟨(load_recovers sampleEngine Page.blank).2.2.2.2.1 [.obj [("id", .num 1 0)]] .null []
      (fun a ha => by
        have h : a = .obj [("id", .num 1 0)] := by simpa using ha
        subst h
        exact ⟨_, renderRow_ok sampleEngine _ (rowOf sampleEngine (.obj [("id", .num 1 0)])) rfl (by decide)⟩)
      rfl,
   by decide⟩

/-- C4 fails as stated: when `res.json()` rejects with the message V8 gives for
the body `<tr><td>x`, which quotes the body, the container holds two rows, and
neither contains the message. -/
theorem load_recovers_counterexample :
    (load sampleEngine (.response true (.invalid
        ⟨"Unexpected token \x27<\x27, \"<tr><td>x\" is not valid JSON"⟩))
      Page.blank).page.content.rowCount = some 2 ∧
    (load sampleEngine (.response true (.invalid
        ⟨"Unexpected token \x27<\x27, \"<tr><td>x\" is not valid JSON"⟩))
      Page.blank).page.content.cellTexts
      = some [["Error loading: Unexpected token \x27<\x27, \""], ["x\" is not valid JSON"]] := by
  decide

/-! ## Properties of the delete click handler -/

/-- C5: when the user declines the confirmation, the handler ends normally having
only shown the confirmation: no `DELETE` request, no `GET` request, no alert, and
the container content is what it was before the click. -/
theorem click_declined (eng : Engine) (env : ClickEnv) (target : Button) (p : Page)
    (h : env.confirmed = false) :
    (deleteClick eng env target p).thrown = none ∧
    (deleteClick eng env target p).page.content = p.content ∧
    (deleteClick eng env target p).page.trace
      = p.trace ++ [.confirm ("Delete article " ++ target.dataId ++ "?")] ∧
    deleteRequests (deleteClick eng env target p).page.trace = deleteRequests p.trace ∧
    getRequests (deleteClick eng env target p).page.trace = getRequests p.trace ∧
    alerts (deleteClick eng env target p).page.trace = alerts p.trace := by
  have hd : deleteClick eng env target p
      = ⟨p.log (.confirm ("Delete article " ++ target.dataId ++ "?")), none⟩ := by
    simp [deleteClick, h]
  rw [hd]
  simp [Page.log, deleteRequests, getRequests, alerts]

/-- A declined click on the control of article 1 of the loaded scenario. -/
theorem click_declined_witness :
    deleteRequests (deleteClick sampleEngine ⟨false, .rejected ⟨"offline"⟩, .rejected ⟨"offline"⟩⟩
      ⟨"1", 1⟩ (load sampleEngine (.response true (.parsed sampleData)) Page.blank).page).page.trace
      = deleteRequests (load sampleEngine (.response true (.parsed sampleData)) Page.blank).page.trace :=
  (click_declined sampleEngine ⟨false, .rejected ⟨"offline"⟩, .rejected ⟨"offline"⟩⟩ ⟨"1", 1⟩
    (load sampleEngine (.response true (.parsed sampleData)) Page.blank).page rfl).2.2.2.1

/-- C6: when the user confirms and the `DELETE` response has a success status,
the handler runs `load` once, on the page as it is after the `DELETE` request:
exactly one further `GET /articles` is issued, no alert is shown, and nothing is
thrown. -/
theorem click_deleted_reloads (eng : Engine) (env : ClickEnv) (target : Button) (p : Page)
    (body : BodyOutcome) (hc : env.confirmed = true) (hd : env.deleted = .response true body) :
    deleteClick eng env target p = load eng env.reload (afterDelete target p) ∧
    getRequests (deleteClick eng env target p).page.trace
      = getRequests p.trace ++ ["/articles"] ∧
    alerts (deleteClick eng env target p).page.trace = alerts p.trace ∧
    (deleteClick eng env target p).thrown = none := by
  have h : deleteClick eng env target p = load eng env.reload (afterDelete target p) := by
    simp [deleteClick, hc, hd, afterDelete]
  rw [h]
  refine ⟨rfl, ?_, ?_, load_not_thrown _ _ _⟩
  · rw [load_getRequests, (afterDelete_requests target p).1]
  · rw [load_alerts, (afterDelete_requests target p).2.2]

/-- A confirmed, successful delete of article 1 followed by an empty reload. -/
theorem click_deleted_reloads_witness :
    getRequests (deleteClick sampleEngine
      ⟨true, .response true (.invalid ⟨"no body"⟩), .response true (.parsed (.arr []))⟩
      ⟨"1", 1⟩ Page.blank).page.trace = getRequests Page.blank.trace ++ ["/articles"] :=
  (click_deleted_reloads sampleEngine
    ⟨true, .response true (.invalid ⟨"no body"⟩), .response true (.parsed (.arr []))⟩
    ⟨"1", 1⟩ Page.blank (.invalid ⟨"no body"⟩) rfl rfl).2.1

/-- C7: when the user confirms and the `DELETE` response has a non-success
status, the handler shows the alert "Delete failed", issues no `GET` request,
leaves the container content as it was, and ends normally. -/
theorem click_delete_failed (eng : Engine) (env : ClickEnv) (target : Button) (p : Page)
    (body : BodyOutcome) (hc : env.confirmed = true) (hd : env.deleted = .response false body) :
    alerts (deleteClick eng env target p).page.trace = alerts p.trace ++ ["Delete failed"] ∧
    getRequests (deleteClick eng env target p).page.trace = getRequests p.trace ∧
    (deleteClick eng env target p).page.content = p.content ∧
    (deleteClick eng env target p).thrown = none := by
  have h : deleteClick eng env target p
      = ⟨(afterDelete target p).log (.alert "Delete failed"), none⟩ := by
    simp [deleteClick, hc, hd, afterDelete]
  rw [h]
  simp [afterDelete, Page.log, alerts, getRequests]

/-- A confirmed delete of article 1 answered with a failure status. -/
theorem click_delete_failed_witness :
    alerts (deleteClick sampleEngine
      ⟨true, .response false (.invalid ⟨"no body"⟩), .rejected ⟨"unused"⟩⟩
      ⟨"1", 1⟩ Page.blank).page.trace = alerts Page.blank.trace ++ ["Delete failed"] :=
  (click_delete_failed sampleEngine
    ⟨true, .response false (.invalid ⟨"no body"⟩), .rejected ⟨"unused"⟩⟩
    ⟨"1", 1⟩ Page.blank (.invalid ⟨"no body"⟩) rfl rfl).1

/-- C8 (as amended): after a successful `GET /articles` with a non-empty array of
articles whose texts exist and are markup-free, the row of every article holds
exactly one delete control; its `data-id` is the text of that article's `id` and
it has exactly one click listener; a confirmed click on that control issues
exactly one `DELETE` request, by passing `/articles/` followed by that same text
to `fetch`, whatever the network then answers; when that text is made of
letters, digits, `-` and `_`, the request goes to exactly that path. -/
theorem delete_control_targets_article (eng : Engine) (p : Page) (data : List JVal)
    (hne : data ≠ []) (hwf : ∀ a ∈ data, plainArticle eng a = true) :
    ∃ controls, (load eng (.response true (.parsed (.arr data))) p).page.content.rowControls
        = some controls ∧
      controls.length = data.length ∧
      (load eng (.response true (.parsed (.arr data))) p).page.content.buttons
        = some controls.flatten ∧
      ∀ (i : Nat) (a : JVal), data[i]? = some a →
        ∃ b, controls[i]? = some [b] ∧
          b.dataId = idText eng a ∧
          b.clickListeners = 1 ∧
          (∀ (env : ClickEnv) (q : Page), env.confirmed = true →
            deleteRequests (deleteClick eng env b q).page.trace
              = deleteRequests q.trace ++ ["/articles/" ++ idText eng a]) ∧
          ((idText eng a).data.all urlSafeChar = true →
            requestPath ("/articles/" ++ idText eng a)
              = some ("/articles/" ++ idText eng a)) := by
  rw [load_plain eng p data hne hwf]
  have hc := rowControls_plain eng data 1 hwf
  refine ⟨_, hc, by simp, by simp [Content.buttons, hc], ?_⟩
  intro i a hi
  refine ⟨⟨idText eng a, 1⟩, by simp [hi], rfl, rfl, ?_, requestPath_safe _⟩
  intro env q hq
  exact deleteClick_deleteRequests eng env ⟨idText eng a, 1⟩ q hq

/-- The control of the scenario's article issues `DELETE /articles/1`. -/
theorem delete_control_targets_article_witness :
    (load sampleEngine (.response true (.parsed sampleData)) Page.blank).page.content.rowControls
      = some [[⟨"1", 1⟩]] ∧
    ∃ controls, (load sampleEngine (.response true (.parsed (.arr sampleData.items)))
          Page.blank).page.content.rowControls = some controls ∧
      controls.length = sampleData.items.length ∧
      (load sampleEngine (.response true (.parsed (.arr sampleData.items))) Page.blank).page.content.buttons
        = some controls.flatten ∧
      ∀ (i : Nat) (a : JVal), sampleData.items[i]? = some a →
        ∃ b, controls[i]? = some [b] ∧
          b.dataId = idText sampleEngine a ∧
          b.clickListeners = 1 ∧
          (∀ (env : ClickEnv) (q : Page), env.confirmed = true →
            deleteRequests (deleteClick sampleEngine env b q).page.trace
              = deleteRequests q.trace ++ ["/articles/" ++ idText sampleEngine a]) ∧
          ((idText sampleEngine a).data.all urlSafeChar = true →
            requestPath ("/articles/" ++ idText sampleEngine a)
              = some ("/articles/" ++ idText sampleEngine a)) :=
  ⟨by decide,
   delete_control_targets_article sampleEngine Page.blank sampleData.items
    (by simp [sampleData, JVal.items]) (by decide)⟩

/-- C8 fails as stated: for the article whose `id` is `a"b` the delete control
carries `a`, and a confirmed click on it issues `DELETE /articles/a`; for the
article whose `id` is `a#b` the control carries `a#b`, and the request of a
confirmed click goes to `/articles/a`. -/
theorem delete_control_targets_article_counterexample :
    idText sampleEngine (.obj [("id", .str "a\"b"), ("paperTitle", .str "A")]) = "a\"b" ∧
    (load sampleEngine (.response true (.parsed (.arr quoteIdData)))
      Page.blank).page.content.buttons = some [⟨"a", 1⟩] ∧
    deleteRequests (deleteClick sampleEngine
      ⟨true, .rejected ⟨"offline"⟩, .rejected ⟨"offline"⟩⟩ ⟨"a", 1⟩
      (load sampleEngine (.response true (.parsed (.arr quoteIdData)))
        Page.blank).page).page.trace = ["/articles/a"] ∧
    (load sampleEngine (.response true (.parsed (.arr fragmentIdData)))
      Page.blank).page.content.buttons = some [⟨"a#b", 1⟩] ∧
    deleteRequests (deleteClick sampleEngine
      ⟨true, .rejected ⟨"offline"⟩, .rejected ⟨"offline"⟩⟩ ⟨"a#b", 1⟩
      (load sampleEngine (.response true (.parsed (.arr fragmentIdData)))
        Page.blank).page).page.trace = ["/articles/a#b"] ∧
    requestPath "/articles/a#b" = some "/articles/a" := by
  decide

/-- C9 (as amended): in the row of an article whose texts exist and are
markup-free, the text of the id cell and the `data-id` of the delete control are
equal exactly when the article's `id` is truthy or is the empty string.  For an
`id` that is `0`, `null` or missing the id cell is empty while the control
carries "0", "null" or "undefined", and a confirmed click then issues
`DELETE /articles/0`, `/articles/null` or `/articles/undefined`: `fetch` is
passed `/articles/` followed by the `data-id`, and the request goes to that
path. -/
theorem id_cell_vs_delete_control (eng : Engine) (p : Page) (data : List JVal)
    (hne : data ≠ []) (hwf : ∀ a ∈ data, plainArticle eng a = true) :
    ∃ table controls,
      (load eng (.response true (.parsed (.arr data))) p).page.content.cellTexts = some table ∧
      (load eng (.response true (.parsed (.arr data))) p).page.content.rowControls
        = some controls ∧
      ∀ (i : Nat) (a : JVal), data[i]? = some a →
        ∃ idCell rest b, table[i]? = some (idCell :: rest) ∧ controls[i]? = some [b] ∧
          (idCell = b.dataId ↔
            ((fieldOf a "id").truthy = true ∨ fieldOf a "id" = .str "")) ∧
          (∀ k, fieldOf a "id" = .num 0 k → idCell = "" ∧ b.dataId = "0" ∧
            requestPath ("/articles/" ++ b.dataId) = some "/articles/0") ∧
          (fieldOf a "id" = .null → idCell = "" ∧ b.dataId = "null" ∧
            requestPath ("/articles/" ++ b.dataId) = some "/articles/null") ∧
          (fieldOf a "id" = .undefined → idCell = "" ∧ b.dataId = "undefined" ∧
            requestPath ("/articles/" ++ b.dataId) = some "/articles/undefined") ∧
          ∀ (env : ClickEnv) (q : Page), env.confirmed = true →
            deleteRequests (deleteClick eng env b q).page.trace
              = deleteRequests q.trace ++ ["/articles/" ++ b.dataId] := by
  rw [load_plain eng p data hne hwf]
  refine ⟨_, _, cellTexts_plain eng data 1 hwf, rowControls_plain eng data 1 hwf, ?_⟩
  intro i a hi
  refine ⟨(specCell eng (fieldOf a "id")).getD "",
    [(specCell eng (fieldOf a "paperTitle")).getD "", (specCell eng (fieldOf a "authors")).getD "",
      (specCell eng (fieldOf a "publicationYear")).getD "", "Delete"],
    ⟨idText eng a, 1⟩, by simp [hi, specCells], by simp [hi], ?_, ?_, ?_, ?_, ?_⟩
  · show (specCell eng (fieldOf a "id")).getD "" = idText eng a ↔ _
    unfold specCell idText
    cases ht : (fieldOf a "id").truthy
    · obtain ⟨s, hs, hiff⟩ := toText_of_falsy eng _ ht
      simpa [hs] using hiff
    · simp
  · intro k h0
    have hid : idText eng a = "0" := by
      simp [idText, h0, JVal.toText, numText_zero]
    refine ⟨?_, hid, ?_⟩
    · show (specCell eng (fieldOf a "id")).getD "" = ""
      simp [specCell, h0, JVal.truthy]
    · show requestPath ("/articles/" ++ idText eng a) = _
      rw [hid]
      decide
  · intro h0
    have hid : idText eng a = "null" := by
      simp [idText, h0, JVal.toText]
    refine ⟨?_, hid, ?_⟩
    · show (specCell eng (fieldOf a "id")).getD "" = ""
      simp [specCell, h0, JVal.truthy]
    · show requestPath ("/articles/" ++ idText eng a) = _
      rw [hid]
      decide
  · intro h0
    have hid : idText eng a = "undefined" := by
      simp [idText, h0, JVal.toText]
    refine ⟨?_, hid, ?_⟩
    · show (specCell eng (fieldOf a "id")).getD "" = ""
      simp [specCell, h0, JVal.truthy]
    · show requestPath ("/articles/" ++ idText eng a) = _
      rw [hid]
      decide
  · intro env q hq
    exact deleteClick_deleteRequests eng env ⟨idText eng a, 1⟩ q hq

/-- An article without `id`: empty id cell, control carrying "undefined". -/
theorem id_cell_vs_delete_control_witness :
    (load sampleEngine (.response true (.parsed (.arr [.obj [("paperTitle", .str "A")]])))
      Page.blank).page.content.cellTexts = some [["", "A", "", "", "Delete"]] ∧
    (load sampleEngine (.response true (.parsed (.arr [.obj [("paperTitle", .str "A")]])))
      Page.blank).page.content.rowControls = some [[⟨"undefined", 1⟩]] ∧
    ∃ table controls,
      (load sampleEngine (.response true (.parsed (.arr [.obj [("paperTitle", .str "A")]])))
        Page.blank).page.content.cellTexts = some table ∧
      (load sampleEngine (.response true (.parsed (.arr [.obj [("paperTitle", .str "A")]])))
        Page.blank).page.content.rowControls = some controls ∧
      ∀ (i : Nat) (a : JVal), [JVal.obj [("paperTitle", .str "A")]][i]? = some a →
        ∃ idCell rest b, table[i]? = some (idCell :: rest) ∧ controls[i]? = some [b] ∧
          (idCell = b.dataId ↔
            ((fieldOf a "id").truthy = true ∨ fieldOf a "id" = .str "")) ∧
          (∀ k, fieldOf a "id" = .num 0 k → idCell = "" ∧ b.dataId = "0" ∧
            requestPath ("/articles/" ++ b.dataId) = some "/articles/0") ∧
          (fieldOf a "id" = .null → idCell = "" ∧ b.dataId = "null" ∧
            requestPath ("/articles/" ++ b.dataId) = some "/articles/null") ∧
          (fieldOf a "id" = .undefined → idCell = "" ∧ b.dataId = "undefined" ∧
            requestPath ("/articles/" ++ b.dataId) = some "/articles/undefined") ∧
          ∀ (env : ClickEnv) (q : Page), env.confirmed = true →
            deleteRequests (deleteClick sampleEngine env b q).page.trace
              = deleteRequests q.trace ++ ["/articles/" ++ b.dataId] :=
  ⟨by decide, by decide,
   id_cell_vs_delete_control sampleEngine Page.blank [.obj [("paperTitle", .str "A")]]
    (by simp) (by decide)⟩

/-- C9 fails as stated: the `id` `7"` is truthy, yet the id cell reads `7"` while
the delete control carries `7`. -/
theorem id_cell_vs_delete_control_counterexample :
    (JVal.str "7\"").truthy = true ∧
    (load sampleEngine (.response true (.parsed (.arr quoteTailIdData))) Page.blank).page.content.cellTexts
      = some [["7\"", "", "", "", "Delete"]] ∧
    (load sampleEngine (.response true (.parsed (.arr quoteTailIdData))) Page.blank).page.content.rowControls
      = some [[⟨"7", 1⟩]] := by
  decide

/-- C10: when the user confirms and the `DELETE` request rejects, the exception
leaves the handler uncaught, no alert is shown, no `GET` request is issued and
the container content is as before.  Over all runs of the handler, the alert
"Delete failed" is added exactly when the user confirmed and a `DELETE` response
arrived with a non-success status; otherwise no alert is added. -/
theorem click_delete_rejected (eng : Engine) (env : ClickEnv) (target : Button) (p : Page) :
    (∀ e, env.confirmed = true → env.deleted = .rejected e →
      (deleteClick eng env target p).thrown = some e ∧
      alerts (deleteClick eng env target p).page.trace = alerts p.trace ∧
      getRequests (deleteClick eng env target p).page.trace = getRequests p.trace ∧
      (deleteClick eng env target p).page.content = p.content) ∧
    (alerts (deleteClick eng env target p).page.trace = alerts p.trace ++ ["Delete failed"] ↔
      env.confirmed = true ∧ ∃ body, env.deleted = .response false body) ∧
    (alerts (deleteClick eng env target p).page.trace = alerts p.trace ++ ["Delete failed"] ∨
      alerts (deleteClick eng env target p).page.trace = alerts p.trace) := by
  obtain ⟨c, d, r⟩ := env
  have ha := (afterDelete_requests target p).2.2
  have hg := (afterDelete_requests target p).1
  cases c with
  | false =>
    have h : deleteClick eng ⟨false, d, r⟩ target p
        = ⟨p.log (.confirm ("Delete article " ++ target.dataId ++ "?")), none⟩ := rfl
    rw [h]
    simp [Page.log, alerts]
  | true =>
    cases d with
    | rejected e0 =>
      have h : deleteClick eng ⟨true, .rejected e0, r⟩ target p
          = ⟨afterDelete target p, some e0⟩ := rfl
      rw [h]
      simp only [ha, hg]
      simp [afterDelete, Page.log]
    | response ok body =>
      cases ok with
      | false =>
        have h : deleteClick eng ⟨true, .response false body, r⟩ target p
            = ⟨(afterDelete target p).log (.alert "Delete failed"), none⟩ := rfl
        rw [h]
        simp [afterDelete, Page.log, alerts]
      | true =>
        have h : deleteClick eng ⟨true, .response true body, r⟩ target p
            = load eng r (afterDelete target p) := rfl
        rw [h, load_alerts, ha]
        simp

/-- A confirmed delete of article 1 whose request fails on the network. -/
theorem click_delete_rejected_witness :
    (deleteClick sampleEngine ⟨true, .rejected ⟨"Failed to fetch"⟩, .rejected ⟨"unused"⟩⟩
      ⟨"1", 1⟩ Page.blank).thrown = some ⟨"Failed to fetch"⟩ :=
  ((click_delete_rejected sampleEngine ⟨true, .rejected ⟨"Failed to fetch"⟩, .rejected ⟨"unused"⟩⟩
    ⟨"1", 1⟩ Page.blank).1 ⟨"Failed to fetch"⟩ rfl rfl).1

end ArticleListView
